import Mathlib

/-!
Shallow embedding of the multi-agent paper-trading pipeline of the
Atlas backend: the communication hub (`app/agents/agent_communication.py`),
the free-text parsers of the market analyst, risk manager and execution
agents, the portfolio constraint checker, the coordinator's trading cycle
(`app/agents/coordinator.py`) and the autonomous pilot loop
(`app/agents/autonomous_pilot.py`).

Modelling conventions:
- Python strings are `List Char` (abbreviated `Str`); Python `str.upper` /
  `str.lower` are mapped character-wise with `Char.toUpper` / `Char.toLower`
  (the texts involved are ASCII).
- Python floats are modelled as rationals (`ℚ`); the claims under study are
  about guards, defaults and algebraic identities, not rounding.
- Python dicts with a fixed key set are structures; a key that is sometimes
  absent (the "exists" key of position-info dicts) is an `Option` field.
- Code that can raise returns `Except Str α`; external collaborators (the
  generative model, the database, the order-execution service) enter as
  environment records of such fallible functions.
- Timestamps, uuids, logging and the purely textual parts of some payloads
  (f-string renderings) are elided; every value a claim mentions is kept.
-/

namespace Atlas

/-- Python strings are modelled as lists of characters. -/
abbrev Str := List Char

/-! ## Character classes and regex-shaped scanning

The three agents share a single regex idiom:
`keyword` (case-insensitive), then `[:\s]+`, optionally `\$?`, then a
captured character-class run.  The separator class and each capture class
are disjoint, so the greedy scan below is exactly the Python regex's
leftmost match. -/

/-- Python's `\s` restricted to ASCII: space, tab, newline, carriage
return, vertical tab, form feed. -/
def isPySpace (c : Char) : Bool :=
  c == ' ' || c == '\t' || c == '\n' || c == '\r' ||
    c == Char.ofNat 11 || c == Char.ofNat 12

/-- The separator class `[:\s]` used by all three keyword regexes. -/
def isSepChar (c : Char) : Bool :=
  c == ':' || isPySpace c

/-- Capture class `[0-9.]` (confidence, stop loss, take profit). -/
def confClass (c : Char) : Bool := c.isDigit || c == '.'

/-- Capture class `[0-9,]` (position size dollars). -/
def posSizeClass (c : Char) : Bool := c.isDigit || c == ','

/-- Capture class `\d` (quantity in the pilot parser). -/
def digitClass (c : Char) : Bool := c.isDigit

/-- Case-insensitive literal match; returns the rest of the text after the
keyword when it matches at the head. -/
def matchCI : Str → Str → Option Str
  | [], s => some s
  | _ :: _, [] => none
  | k :: ks, c :: cs => if k.toLower == c.toLower then matchCI ks cs else none

/-- Try the pattern `kw[:\s]+\$?(cls+)` anchored at the head of `s`
(the `\$?` part only when `dollar` is true); return the captured group. -/
def tryKwGroupAt (kw : Str) (dollar : Bool) (cls : Char → Bool) (s : Str) :
    Option Str :=
  match matchCI kw s with
  | none => none
  | some r1 =>
    let sep := r1.takeWhile isSepChar
    let r2 := r1.dropWhile isSepChar
    if sep.isEmpty then none
    else
      let r3 := if dollar then
          (match r2 with
           | '$' :: t => t
           | _ => r2)
        else r2
      let grp := r3.takeWhile cls
      if grp.isEmpty then none else some grp

/-- `re.search` of `kw[:\s]+\$?(cls+)` with `re.IGNORECASE`: scan for the
leftmost start position where the whole pattern matches, returning the
captured group. -/
def findKwGroup (kw : Str) (dollar : Bool) (cls : Char → Bool) : Str → Option Str
  | [] => none
  | c :: rest =>
    match tryKwGroupAt kw dollar cls (c :: rest) with
    | some g => some g
    | none => findKwGroup kw dollar cls rest

/-- Value of a string of decimal digits (list is all digits by
construction at every call site). -/
def digitsToNat (g : Str) : Nat :=
  g.foldl (fun a c => a * 10 + (c.toNat - 48)) 0

/-- Python `float(...)` applied to a string drawn from the alphabet
`[0-9.]`: succeeds when there is at least one digit and at most one dot. -/
def pyFloat (g : Str) : Option ℚ :=
  if g.any (fun c => c.isDigit) && g.count '.' ≤ 1 then
    let ip := g.takeWhile (fun c => c ≠ '.')
    let rest := g.dropWhile (fun c => c ≠ '.')
    let fp := rest.drop 1
    some ((digitsToNat ip : ℚ) + (digitsToNat fp : ℚ) / ((10 ^ fp.length : ℕ) : ℚ))
  else none

/-- Python `int(...)` applied to a float: truncation toward zero. -/
def pyIntOfRat (q : ℚ) : ℤ :=
  if 0 ≤ q then ⌊q⌋ else -⌊-q⌋

/-- Python's substring operator `needle in hay`. -/
def containsSub (hay needle : Str) : Bool :=
  needle.isPrefixOf hay ||
    (match hay with
     | [] => false
     | _ :: t => containsSub t needle)

/-- Character-wise model of Python `str.upper()` (ASCII texts). -/
def pyUpper (c : Char) : Char := c.toUpper

/-- Python `str.strip()`: drop ASCII whitespace from both ends. -/
def pyStrip (s : Str) : Str :=
  ((s.dropWhile isPySpace).reverse.dropWhile isPySpace).reverse

/-- Python `"...".replace(",", "")` on a captured `[0-9,]+` group. -/
def stripCommas (g : Str) : Str := g.filter (fun c => c ≠ ',')

/-! ## Communication hub (`app/agents/agent_communication.py`)

The content mappings broadcast through the hub are arbitrary key-value
dicts; they are modelled as association lists `List (String × String)` —
the hub stores and returns them opaquely, so the claims hold for any
representation. -/

/-- Content mapping carried in hub messages. -/
abbrev Ctx := List (String × String)

/-- `MessageType` enum. -/
inductive MessageType where
  | request
  | response
  | broadcast
  | query
  | result
deriving DecidableEq

/-- `AgentMessage` (timestamps elided). -/
structure AgentMessage where
  from_agent : String
  to_agent : Option String
  message_type : MessageType
  content : Ctx
  message_id : String
deriving DecidableEq

/-- `AgentCommunicationHub` state.  The registry maps names to agent
instances; the instances themselves play no role in any claim, so only the
key set is kept.  `shared_context` is the dict agent name ↦ last
broadcast content. -/
structure Hub where
  agents : List String
  message_history : List AgentMessage
  shared_context : String → Option Ctx

/-- A hub as produced by `__init__`. -/
def Hub.init : Hub :=
  { agents := [], message_history := [], shared_context := fun _ => none }

/-- `register_agent`: dict upsert (key set unchanged on re-registration). -/
def registerAgent (h : Hub) (name : String) : Hub :=
  { h with agents := if h.agents.contains name then h.agents else h.agents ++ [name] }

/-- `send_message`: append-only into the history. -/
def sendMessage (h : Hub) (m : AgentMessage) : Hub :=
  { h with message_history := h.message_history ++ [m] }

/-- `broadcast`: append a BROADCAST message, then overwrite
`shared_context[from_agent] = content`.  The generated uuid is passed in
as `message_id`. -/
def broadcast (h : Hub) (from_agent : String) (content : Ctx)
    (message_id : String) : Hub :=
  let m : AgentMessage :=
    { from_agent := from_agent, to_agent := none,
      message_type := MessageType.broadcast, content := content,
      message_id := message_id }
  let h1 := sendMessage h m
  { h1 with shared_context := fun a =>
      if a = from_agent then some content else h1.shared_context a }

/-- `get_shared_context(agent_name)` with an agent name:
`shared_context.get(agent_name, {})`. -/
def getSharedContext (h : Hub) (agent : String) : Ctx :=
  (h.shared_context agent).getD []

/-- `clear()`: empty the history and the shared context. -/
def clearHub (h : Hub) : Hub :=
  { h with message_history := [], shared_context := fun _ => none }

/-- Apply a sequence of broadcasts `(from_agent, content, message_id)` in
order. -/
def applyBroadcasts (h : Hub) (bs : List (String × Ctx × String)) : Hub :=
  bs.foldl (fun acc b => broadcast acc b.1 b.2.1 b.2.2) h

/-- Content of the most recent broadcast by `A` in the sequence, if any. -/
def lastBroadcastOf (A : String) (bs : List (String × Ctx × String)) :
    Option Ctx :=
  ((bs.filter (fun b => b.1 == A)).getLast?).map (fun b => b.2.1)

/-! ## Data model -/

/-- Settings (`app/config.py`). -/
def PAPER_MAX_POSITIONS : Nat := 10

/-- Settings (`app/config.py`). -/
def PAPER_MAX_POSITION_SIZE : ℚ := 10000

/-- A position dict as built by `get_portfolio_state`
(`app/services/portfolio.py`); the price/value/pnl keys play no role in
the claims and are elided. -/
structure Position where
  symbol : String
  quantity : ℤ
  avg_entry_price : ℚ
deriving DecidableEq

/-- Portfolio-state dict (`get_portfolio_state`); only the keys the
pipeline reads are kept. -/
structure PortfolioState where
  cash : ℚ
  positions : List Position
  positions_value : ℚ
  total_equity : ℚ
deriving DecidableEq

/-- `next((p for p in positions if p["symbol"] == symbol), None)`. -/
def findPosition (ps : List Position) (symbol : String) : Option Position :=
  ps.find? (fun p => p.symbol == symbol)

/-- Output of `PortfolioManagerAgent.get_position_info`: either the raw
position dict (which carries no `"exists"` key — hence `existsKey :=
none` there) or the fallback `{symbol, quantity: 0, exists: False}`. -/
structure PositionInfo where
  symbol : String
  quantity : ℤ
  existsKey : Option Bool
deriving DecidableEq

/-- `get_position_info(symbol)` over the cached portfolio state. -/
def getPositionInfo (st : PortfolioState) (symbol : String) : PositionInfo :=
  match findPosition st.positions symbol with
  | some p => { symbol := p.symbol, quantity := p.quantity, existsKey := none }
  | none => { symbol := symbol, quantity := 0, existsKey := some false }

/-- Constraint violations of `check_trade_constraints`; the f-string
renderings are elided, the interpolated data is kept. -/
inductive Violation where
  | alreadyHavePosition (symbol : String) (qty : ℤ)
  | maxPositionsReached (maxP : Nat)
  | insufficientCash (cash : ℚ)
  | noExistingPosition (symbol : String)
  | insufficientShares (held want : ℤ)
deriving DecidableEq

/-- `PortfolioConstraintResult` (timestamp elided). -/
structure ConstraintResult where
  allowed : Bool
  violations : List Violation
  current_positions : Nat
  cash_available : ℚ
deriving DecidableEq

/-- `PortfolioManagerAgent.check_trade_constraints` — pure function over
the cached state.  Violation lists are accumulated in source order;
`allowed = len(violations) == 0`. -/
def checkTradeConstraints (st : PortfolioState) (symbol : String)
    (action : String) (quantity : ℤ) : ConstraintResult :=
  let existing := findPosition st.positions symbol
  let violations : List Violation :=
    if action = "BUY" then
      (match existing with
       | some p => [Violation.alreadyHavePosition symbol p.quantity]
       | none => []) ++
      (if st.positions.length ≥ PAPER_MAX_POSITIONS then
        [Violation.maxPositionsReached PAPER_MAX_POSITIONS] else []) ++
      (if st.cash < (quantity : ℚ) * 100 then
        [Violation.insufficientCash st.cash] else [])
    else if action = "SELL" then
      (match existing with
       | none => [Violation.noExistingPosition symbol]
       | some p =>
         if p.quantity < quantity then
           [Violation.insufficientShares p.quantity quantity]
         else [])
    else []
  { allowed := violations.length == 0
    violations := violations
    current_positions := st.positions.length
    cash_available := st.cash }

/-- `RiskEvaluation` dict as returned by
`RiskManagerAgent._parse_evaluation` (timestamp elided). -/
structure RiskEvaluation where
  approval_status : String
  risk_level : String
  position_size_dollars : ℚ
  recommended_quantity : ℤ
  stop_loss : ℚ
  take_profit : ℚ
  risk_reward_ratio : ℚ
  reasoning : Str
deriving DecidableEq

/-- Opaque result blob of `execute_paper_trade`. -/
abbrev TradeResult := Str

/-- Decision dict.  The parsers build it without the `trade_result` /
`trade_error` keys (hence `none`); the pilot's ACT stage fills them in.
`key_factors` is write-only downstream of the parser and is elided. -/
structure Decision where
  symbol : String
  action : String
  quantity : Option ℤ
  confidence : ℚ
  reasoning : Str
  trade_result : Option TradeResult := none
  trade_error : Option Str := none
deriving DecidableEq

/-! ## Confidence parsing

The regex `confidence[:\s]+([0-9.]+)` with IGNORECASE is shared verbatim
by `MarketAnalystAgent._extract_confidence`,
`ExecutionAgent._parse_decision` and `parse_autonomous_decision`, and so
is the body of the success branch (`float`, then divide by 100 when > 1)
and the 0.5 default on a missing or unparseable group.  Only the market
analyst additionally clamps with `max(0.0, min(1.0, confidence))`. -/

/-- The confidence logic of `ExecutionAgent._parse_decision` (lines
199–211) and of `parse_autonomous_decision` (lines 293–302), which is
identical in both: matched value, divided by 100 when above 1; 0.5 when
the regex does not match or `float` raises. -/
def confidenceFromText (text : Str) : ℚ :=
  match findKwGroup ("confidence".toList) false confClass text with
  | some g =>
    match pyFloat g with
    | some c => if c > 1 then c / 100 else c
    | none => 1/2
  | none => 1/2

/-- `MarketAnalystAgent._extract_confidence`: same regex and division,
followed by `max(0.0, min(1.0, confidence))`; 0.5 on no match or
`float` failure. -/
def extractConfidence (text : Str) : ℚ :=
  match findKwGroup ("confidence".toList) false confClass text with
  | some g =>
    match pyFloat g with
    | some c0 =>
      let c := if c0 > 1 then c0 / 100 else c0
      max 0 (min 1 c)
    | none => 1/2
  | none => 1/2

/-- The string `"DON'T BUY"` (built without an apostrophe literal). -/
def dontBuyStr : Str := ("DON".toList) ++ [Char.ofNat 39] ++ ("T BUY".toList)

/-- The Python truthiness-plus-flag test
`existing_position and existing_position.get("exists", False)` of
`_parse_decision` line 177.  The `"exists"` key is absent from raw
position dicts, hence `getD false`. -/
def existsFlag (existing : Option PositionInfo) : Bool :=
  match existing with
  | some p => p.existsKey.getD false
  | none => false

/-- The action resolution of `ExecutionAgent._parse_decision` (lines
174–188): HOLD wins; with a flagged position, SELL/EXIT keywords mean
SELL; without one, BUY not preceded by "DON'T" means BUY; HOLD
otherwise. -/
def parseDecisionAction (text : Str) (existing : Option PositionInfo) :
    String :=
  let tu := text.map pyUpper
  if containsSub tu ("HOLD".toList) then "HOLD"
  else if existsFlag existing then
    if containsSub tu ("SELL".toList) || containsSub tu ("EXIT".toList) then
      "SELL"
    else "HOLD"
  else
    if containsSub tu ("BUY".toList) && !containsSub tu dontBuyStr then
      "BUY"
    else "HOLD"

/-- `ExecutionAgent._parse_decision`.  Notes kept from the source:
`risk_evaluation.get("recommended_quantity", 10)` and
`existing_position.get("quantity", 0)` read keys that every producer in
the repository populates, so they are total fields here. -/
def parseDecision (text : Str) (risk : RiskEvaluation)
    (existing : Option PositionInfo) : Decision :=
  let action := parseDecisionAction text existing
  let quantity : Option ℤ :=
    if action = "BUY" then some risk.recommended_quantity
    else
      match existing with
      | some p => if action = "SELL" then some p.quantity else none
      | none => none
  let confidence := confidenceFromText text
  { symbol := "", action := action, quantity := quantity,
    confidence := confidence, reasoning := text.take 400 }

/-- `parse_autonomous_decision` (`app/agents/autonomous_pilot.py` lines
265–328). -/
def parseAutonomousDecision (symbol : String) (text : Str)
    (existing : Option Position) : Decision :=
  let tu := text.map pyUpper
  let action :=
    if containsSub tu ("HOLD".toList) || containsSub tu ("WAIT".toList) then
      "HOLD"
    else if existing.isSome &&
        (containsSub tu ("SELL".toList) || containsSub tu ("EXIT".toList)) then
      "SELL"
    else if existing.isNone && containsSub tu ("BUY".toList) then "BUY"
    else "HOLD"
  let confidence := confidenceFromText text
  let quantity : Option ℤ :=
    if action = "BUY" then
      match findKwGroup ("quantity".toList) false digitClass text with
      | some g => some (digitsToNat g : ℤ)
      | none => some 10
    else if action = "SELL" then
      match existing with
      | some p => some p.quantity
      | none => none
    else none
  let reasoning :=
    pyStrip ((text.take 200).map (fun c => if c = '\n' then ' ' else c))
  { symbol := symbol, action := action, quantity := quantity,
    confidence := confidence, reasoning := reasoning }

/-! ## Risk manager evaluation parsing
(`RiskManagerAgent._parse_evaluation`, lines 141–224)

`current_price` arrives as `market_data.get("current_price")`, so it can
be `None` (`Option ℚ`).  The function can raise: a `ValueError` when
`float` is applied to a captured group it cannot parse, and a `TypeError`
when `None` participates in arithmetic (`current_price * 0.95`,
`current_price * 1.10`, `current_price - stop_loss`).  It is therefore
`Except Str RiskEvaluation`; error strings name the Python exception. -/

/-- The extract-dollar-amount-or-default idiom `_parse_evaluation`
repeats for position size, stop loss and take profit: search for
`kw[:\s]+\$?(cls+)`, apply `float` to the (pre-processed) captured group
— raising `ValueError` when it cannot parse — and fall back to `dflt`
when the regex does not match. -/
def extractDollar (kw : Str) (cls : Char → Bool) (pre : Str → Str)
    (text : Str) (dflt : Except Str ℚ) : Except Str ℚ :=
  match findKwGroup kw true cls text with
  | some g =>
    (match pyFloat (pre g) with
     | some v => Except.ok v
     | none => Except.error ("ValueError: float".toList))
  | none => dflt

/-- The default used when `None` would enter arithmetic
(`current_price * 0.95` and friends): the value when the price is
numeric, a `TypeError` when it is `None`. -/
def priceTimes (current_price : Option ℚ) (factor : ℚ) : Except Str ℚ :=
  match current_price with
  | some c => Except.ok (c * factor)
  | none => Except.error ("TypeError: NoneType in arithmetic".toList)

def parseEvaluation (text : Str) (current_price : Option ℚ)
    (st : PortfolioState) : Except Str RiskEvaluation :=
  let tu := text.map pyUpper
  let approval :=
    if containsSub tu ("APPROVED".toList) &&
        !containsSub tu ("REJECTED".toList) then "APPROVED"
    else "REJECTED"
  let risk_level :=
    if containsSub tu ("HIGH RISK".toList) || containsSub tu ("HIGH".toList) then
      "HIGH"
    else if containsSub tu ("LOW RISK".toList) ||
        containsSub tu ("LOW".toList) then "LOW"
    else "MEDIUM"
  match extractDollar ("position size".toList) posSizeClass stripCommas text
      (Except.ok (min (st.total_equity * (5/100)) PAPER_MAX_POSITION_SIZE)) with
  | Except.error e => Except.error e
  | Except.ok position_size =>
    let quantity : ℤ :=
      match current_price with
      | some c => if c ≠ 0 then pyIntOfRat (position_size / c) else 0
      | none => 0
    match extractDollar ("stop loss".toList) confClass (fun g => g) text
        (priceTimes current_price (95/100)) with
    | Except.error e => Except.error e
    | Except.ok stop_loss =>
      match extractDollar ("take profit".toList) confClass (fun g => g) text
          (priceTimes current_price (110/100)) with
      | Except.error e => Except.error e
      | Except.ok take_profit =>
        match current_price with
        | none => Except.error ("TypeError: NoneType in arithmetic".toList)
        | some c =>
          let risk := c - stop_loss
          let reward := take_profit - c
          let rrr := if risk > 0 then reward / risk else 0
          Except.ok
            { approval_status := approval, risk_level := risk_level,
              position_size_dollars := position_size,
              recommended_quantity := quantity,
              stop_loss := stop_loss, take_profit := take_profit,
              risk_reward_ratio := rrr, reasoning := text.take 300 }

/-! ## Coordinator trading cycle
(`MultiAgentCoordinator.run_trading_cycle`, `app/agents/coordinator.py`)

External collaborators are an environment of fallible calls: the
portfolio load, the market analyst's `analyze_symbol` (whose non-raising
outcomes are either the `{status:"error", error}` mapping or a proper
analysis), and the two generative-model chats (risk manager and execution
agent).  The hub broadcasts issued along the way are never read back by
any pipeline step, so they do not influence the returned decisions and
are not threaded here. -/

/-- The slice of a `MarketAnalysis` mapping that downstream steps read:
`market_data.get("current_price")` (possibly absent) and the parsed
confidence. -/
structure MarketAnalysis where
  symbol : String
  current_price : Option ℚ
  confidence : ℚ
deriving DecidableEq

/-- Non-raising outcome of `MarketAnalystAgent.analyze_symbol`: either the
error mapping `{symbol, status: "error", error}` (market-data tool
failure) or an analysis result. -/
inductive AnalyzeOutcome where
  | errorRes (msg : Str)
  | okRes (ma : MarketAnalysis)
deriving DecidableEq

/-- External collaborators of one trading cycle. -/
structure CoordEnv where
  loadPortfolio : Except Str PortfolioState
  analyze : String → Except Str AnalyzeOutcome
  riskModelText : String → String → Except Str Str
  execModelText : String → Except Str Str

/-- `RiskManagerAgent.evaluate_trade`: one model chat, then
`_parse_evaluation` on its text with
`market_analysis.get("market_data", {}).get("current_price")`. -/
def evaluateTrade (env : CoordEnv) (symbol action : String)
    (ma : MarketAnalysis) (st : PortfolioState) : Except Str RiskEvaluation :=
  match env.riskModelText symbol action with
  | Except.error e => Except.error e
  | Except.ok txt => parseEvaluation txt ma.current_price st

/-- The forced decision of the coordinator's two error paths:
`{symbol, action: "HOLD", reasoning, confidence: 0.0}` (no quantity
key). -/
def holdDecision (symbol : String) (reasoning : Str) : Decision :=
  { symbol := symbol, action := "HOLD", quantity := none,
    confidence := 0, reasoning := reasoning }

/-- Line 108: `potential_action = "SELL" if
existing_position.get("exists", False) else "BUY"`. -/
def potentialAction (st : PortfolioState) (symbol : String) : String :=
  if (getPositionInfo st symbol).existsKey.getD false then "SELL" else "BUY"

/-- One iteration of the watchlist loop in `run_trading_cycle` (lines
83–160): market analysis, position info, potential action, risk
evaluation, constraint check, final decision; any raising step is caught
and forces the HOLD decision with the error in the reasoning. -/
def processSymbol (env : CoordEnv) (st : PortfolioState) (symbol : String) :
    Decision :=
  match env.analyze symbol with
  | Except.error e =>
    holdDecision symbol (("Processing error: ".toList) ++ e)
  | Except.ok (AnalyzeOutcome.errorRes msg) =>
    holdDecision symbol (("Analysis error: ".toList) ++ msg)
  | Except.ok (AnalyzeOutcome.okRes ma) =>
    let pos := getPositionInfo st symbol
    match evaluateTrade env symbol (potentialAction st symbol) ma st with
    | Except.error e =>
      holdDecision symbol (("Processing error: ".toList) ++ e)
    | Except.ok re =>
      let pc := checkTradeConstraints st symbol (potentialAction st symbol)
        re.recommended_quantity
      match env.execModelText symbol with
      | Except.error e =>
        holdDecision symbol (("Processing error: ".toList) ++ e)
      | Except.ok txt =>
        let _ := pc
        { parseDecision txt re (some pos) with symbol := symbol }

/-- `run_trading_cycle`: load the portfolio state (fatal on failure),
then process every watchlist symbol in order. -/
def runTradingCycle (env : CoordEnv) (watchlist : List String) :
    Except Str (List Decision) :=
  match env.loadPortfolio with
  | Except.error e => Except.error e
  | Except.ok st => Except.ok (watchlist.map (processSymbol env st))

/-! ## Autonomous pilot loop (`run_autonomous_pilot`,
`app/agents/autonomous_pilot.py`)

The trace keeps the fields the claims mention (`run_id`, `status`,
`error`, `decisions`, `reflection`); timing fields and the tool-call log
are elided.  `trace["decisions"]` aliases the local `decisions` list in
the source, so the ACT-stage updates are visible in the trace. -/

/-- Reflection summary; `generate_reflection`'s free-text lessons and
notes are elided, the numeric summary is kept. -/
structure Reflection where
  trades_executed : Nat
  total_pnl : ℚ
deriving DecidableEq

/-- `generate_reflection` (`app/services/reflection.py`): count of
decisions with a BUY/SELL action and a truthy `trade_result`; pnl is the
equity delta. -/
def generateReflection (old new : PortfolioState) (decisions : List Decision) :
    Reflection :=
  { trades_executed :=
      (decisions.filter (fun d =>
        (d.action == "BUY" || d.action == "SELL") && d.trade_result.isSome)).length
    total_pnl := new.total_equity - old.total_equity }

/-- The pilot run trace. -/
structure Trace where
  run_id : String
  status : String
  error : Option Str := none
  decisions : List Decision := []
  reflection : Option Reflection := none
deriving DecidableEq

/-- External collaborators of one pilot run: the two portfolio loads, the
per-symbol generative-model chat (returning the accumulated text), the
order-execution call, and the equity-snapshot save (which also covers the
uuid parse of the account id). -/
structure PilotEnv where
  portfolioLoad1 : Except Str PortfolioState
  pilotModelText : String → Except Str Str
  execTrade : String → String → ℤ → Except Str TradeResult
  portfolioLoad2 : Except Str PortfolioState
  saveEquity : PortfolioState → Except Str Unit

/-- The hard-coded pilot watchlist. -/
def autonomousWatchlist : List String :=
  ["NVDA", "TSLA", "AAPL", "MSFT", "GOOGL"]

/-- `analyze_symbol_for_autonomous`: model chat then
`parse_autonomous_decision`; its catch-all turns any raise into a HOLD
decision with the error in the reasoning (and no quantity key). -/
def analyzeSymbolForAutonomous (env : PilotEnv) (symbol : String)
    (portfolio : PortfolioState) : Decision :=
  match env.pilotModelText symbol with
  | Except.error e =>
    { symbol := symbol, action := "HOLD", quantity := none,
      confidence := 0, reasoning := ("Analysis error: ".toList) ++ e }
  | Except.ok text =>
    let existing := findPosition portfolio.positions symbol
    parseAutonomousDecision symbol text existing

/-- The ACT-stage gate (line 81): `decision["action"] in ["BUY", "SELL"]
and decision.get("quantity")` — `None` and `0` are both falsy. -/
def shouldTrade (d : Decision) : Bool :=
  (d.action == "BUY" || d.action == "SELL") &&
    (match d.quantity with
     | some q => q != 0
     | none => false)

/-- The ACT stage (lines 80–98): for each decision passing the gate,
submit it to `execute_paper_trade`; success lands in `trade_result`, a
caught exception in `trade_error`, and the loop continues.  Returns the
updated decisions together with the list of decisions actually
submitted. -/
def actStage (env : PilotEnv) : List Decision → List Decision × List Decision
  | [] => ([], [])
  | d :: rest =>
    if shouldTrade d then
      match env.execTrade d.symbol d.action (d.quantity.getD 0) with
      | Except.ok r =>
        ({ d with trade_result := some r } :: (actStage env rest).1,
          d :: (actStage env rest).2)
      | Except.error e =>
        ({ d with trade_error := some e } :: (actStage env rest).1,
          d :: (actStage env rest).2)
    else (d :: (actStage env rest).1, (actStage env rest).2)

/-- The body of `run_autonomous_pilot`'s `try:` block; on a raise it
carries both the exception message and the trace as mutated so far, which
is what the `except`/`finally` blocks observe. -/
def pilotTryBody (env : PilotEnv) (runId : String) :
    Except (Str × Trace) Trace :=
  let t0 : Trace := { run_id := runId, status := "RUNNING" }
  match env.portfolioLoad1 with
  | Except.error e => Except.error (e, t0)
  | Except.ok portfolio =>
    let decisions :=
      autonomousWatchlist.map (fun s => analyzeSymbolForAutonomous env s portfolio)
    let t1 := { t0 with decisions := decisions }
    let acted := actStage env decisions
    let t2 := { t1 with decisions := acted.1 }
    match env.portfolioLoad2 with
    | Except.error e => Except.error (e, t2)
    | Except.ok newPortfolio =>
      let refl := generateReflection portfolio newPortfolio acted.1
      let t3 := { t2 with reflection := some refl }
      match env.saveEquity newPortfolio with
      | Except.error e => Except.error (e, t3)
      | Except.ok _ => Except.ok { t3 with status := "COMPLETE" }

/-- `run_autonomous_pilot`: the try body, the `except` block (mark the
trace ERROR, record the message, re-raise) and the `finally` block
(`save_agent_run(trace)`).  The first component is the call's outcome
(`ok` = the returned trace, `error` = the re-raised exception); the
second lists the traces handed to `save_agent_run`, in order. -/
def runAutonomousPilot (env : PilotEnv) (runId : String) :
    Except Str Trace × List Trace :=
  match pilotTryBody env runId with
  | Except.ok t => (Except.ok t, [t])
  | Except.error (e, t) =>
    (Except.error e, [{ t with status := "ERROR", error := some e }])

/-! ## Concrete fixtures

Sample inputs used by the witness and counterexample theorems below. -/

/-- A minimal risk-evaluation dict (its fields are irrelevant to the
statements that use it). -/
def sampleRisk : RiskEvaluation :=
  { approval_status := "REJECTED", risk_level := "MEDIUM",
    position_size_dollars := 0, recommended_quantity := 0,
    stop_loss := 0, take_profit := 0, risk_reward_ratio := 0,
    reasoning := [] }

/-- A position-info dict for 15 shares of TSLA carrying an explicit
`exists: True` key. -/
def tslaPos : PositionInfo :=
  { symbol := "TSLA", quantity := 15, existsKey := some true }

/-- A portfolio with 1000 of cash, no positions, total equity 1000. -/
def examplePS : PortfolioState :=
  { cash := 1000, positions := [], positions_value := 0, total_equity := 1000 }

/-- A pilot environment whose initial portfolio load raises. -/
def pilotEnvBoom : PilotEnv :=
  { portfolioLoad1 := Except.error ("boom".toList)
    pilotModelText := fun _ => Except.ok []
    execTrade := fun _ _ _ => Except.ok ("filled".toList)
    portfolioLoad2 := Except.ok examplePS
    saveEquity := fun _ => Except.ok () }

/-- A coordinator environment whose market analysis raises for every
symbol. -/
def coordEnvBoom : CoordEnv :=
  { loadPortfolio := Except.ok examplePS
    analyze := fun _ => Except.error ("boom".toList)
    riskModelText := fun _ _ => Except.ok []
    execModelText := fun _ => Except.ok [] }

/-- A pilot environment whose trade submissions all succeed. -/
def pilotEnvOkTrades : PilotEnv :=
  { portfolioLoad1 := Except.ok examplePS
    pilotModelText := fun _ => Except.ok []
    execTrade := fun _ _ _ => Except.ok ("filled".toList)
    portfolioLoad2 := Except.ok examplePS
    saveEquity := fun _ => Except.ok () }

/-- A BUY decision whose parsed quantity is 0 (falsy). -/
def zeroQtyDecision : Decision :=
  { symbol := "NVDA", action := "BUY", quantity := some 0,
    confidence := 1/2, reasoning := [] }

/-- The evaluation `_parse_evaluation` returns for the text "APPROVED"
at price 50 over `examplePS`. -/
def evC5 : RiskEvaluation :=
  { approval_status := "APPROVED", risk_level := "MEDIUM",
    position_size_dollars := 50, recommended_quantity := 1,
    stop_loss := 95/2, take_profit := 55, risk_reward_ratio := 2,
    reasoning := "APPROVED".toList }

/-- The evaluation `_parse_evaluation` returns for the text
"stop loss: 110" at price 50 over `examplePS`: the stop sits above the
price, so the risk/reward ratio is guarded to 0. -/
def evC8 : RiskEvaluation :=
  { approval_status := "REJECTED", risk_level := "MEDIUM",
    position_size_dollars := 50, recommended_quantity := 1,
    stop_loss := 110, take_profit := 55, risk_reward_ratio := 0,
    reasoning := "stop loss: 110".toList }

/-- The evaluation `_parse_evaluation` returns for the empty text at
price 50 over `examplePS`: every field takes its default. -/
def evC9 : RiskEvaluation :=
  { approval_status := "REJECTED", risk_level := "MEDIUM",
    position_size_dollars := 50, recommended_quantity := 1,
    stop_loss := 95/2, take_profit := 55, risk_reward_ratio := 2,
    reasoning := [] }

/-! # Theorems -/

/-! ## Shared helper lemmas -/

/-- A successfully parsed `[0-9.]+` group has a nonnegative value. -/
theorem pyFloat_nonneg {g : Str} {q : ℚ} (h : pyFloat g = some q) : 0 ≤ q := by
  unfold pyFloat at h
  split at h
  · cases h
    positivity
  · cases h

/-- The hub's shared context after a broadcast sequence holds, for each
agent, the content of that agent's most recent broadcast, falling back to
the starting context. -/
theorem applyBroadcasts_shared (h : Hub) (A : String)
    (bs : List (String × Ctx × String)) :
    getSharedContext (applyBroadcasts h bs) A =
      (match lastBroadcastOf A bs with
       | some c => c
       | none => getSharedContext h A) := by
  induction bs using List.reverseRecOn with
  | nil => rfl
  | append_singleton bs b ih =>
    have happ : applyBroadcasts h (bs ++ [b]) =
        broadcast (applyBroadcasts h bs) b.1 b.2.1 b.2.2 := by
      simp [applyBroadcasts, List.foldl_append]
    rw [happ]
    by_cases hA : b.1 = A
    · have hctx : getSharedContext
          (broadcast (applyBroadcasts h bs) b.1 b.2.1 b.2.2) A = b.2.1 := by
        simp [getSharedContext, broadcast, sendMessage, hA]
      have hl : lastBroadcastOf A (bs ++ [b]) = some b.2.1 := by
        simp [lastBroadcastOf, List.filter_append, hA, List.getLast?_concat]
      rw [hctx, hl]
    · have hctx : getSharedContext
          (broadcast (applyBroadcasts h bs) b.1 b.2.1 b.2.2) A =
          getSharedContext (applyBroadcasts h bs) A := by
        simp [getSharedContext, broadcast, sendMessage, Ne.symm hA]
      have hl : lastBroadcastOf A (bs ++ [b]) = lastBroadcastOf A bs := by
        simp [lastBroadcastOf, List.filter_append, hA]
      rw [hctx, hl, ih]

/-- The ACT stage submits exactly the decisions passing the gate. -/
theorem actStage_snd (env : PilotEnv) (ds : List Decision) :
    (actStage env ds).2 = ds.filter shouldTrade := by
  induction ds with
  | nil => rfl
  | cons d rest ih =>
    by_cases hs : shouldTrade d = true
    · cases henv : env.execTrade d.symbol d.action (d.quantity.getD 0) with
      | ok r => simp [actStage, hs, henv, ih, List.filter_cons]
      | error e => simp [actStage, hs, henv, ih, List.filter_cons]
    · simp [actStage, hs, ih, List.filter_cons, Bool.of_not_eq_true hs]

/-- The ACT stage leaves gated-out decisions untouched, position by
position. -/
theorem actStage_fst_skip (env : PilotEnv) (ds : List Decision) (i : Nat)
    (d : Decision) (hd : ds[i]? = some d) (hs : shouldTrade d = false) :
    (actStage env ds).1[i]? = some d := by
  induction ds generalizing i with
  | nil => simp at hd
  | cons d0 rest ih =>
    have hcons : (actStage env (d0 :: rest)).1 =
        (if shouldTrade d0 then
          (match env.execTrade d0.symbol d0.action (d0.quantity.getD 0) with
           | Except.ok r => { d0 with trade_result := some r }
           | Except.error e => { d0 with trade_error := some e })
         else d0) :: (actStage env rest).1 := by
      by_cases h0 : shouldTrade d0 = true
      · cases henv : env.execTrade d0.symbol d0.action (d0.quantity.getD 0) with
        | ok r => simp [actStage, h0, henv]
        | error e => simp [actStage, h0, henv]
      · simp [actStage, h0, Bool.of_not_eq_true h0]
    cases i with
    | zero =>
      have hd0 : d0 = d := by simpa using hd
      subst hd0
      rw [hcons]
      simp [hs]
    | succ j =>
      have hdj : rest[j]? = some d := by simpa using hd
      rw [hcons]
      simpa using ih j hdj

/-- The try body of the pilot returns only fully finalized traces:
status COMPLETE and no error recorded. -/
theorem pilotTryBody_ok (env : PilotEnv) (runId : String) (t : Trace)
    (hb : pilotTryBody env runId = Except.ok t) :
    t.status = "COMPLETE" ∧ t.error = none := by
  unfold pilotTryBody at hb
  repeat' split at hb
  all_goals simp_all
  all_goals exact ⟨hb.symm ▸ rfl, hb.symm ▸ rfl⟩

/-! ## C4 — constraint result invariant -/

/-- C4: for every input (symbol, action, quantity) and every cached
portfolio state, `check_trade_constraints` returns a result with
`allowed == (len(violations) == 0)`. -/
theorem check_trade_constraints_allowed_iff (st : PortfolioState)
    (symbol action : String) (quantity : ℤ) :
    (checkTradeConstraints st symbol action quantity).allowed = true ↔
      (checkTradeConstraints st symbol action quantity).violations = [] := by
  simp [checkTradeConstraints, List.length_eq_zero]

/-! ## C7 — hub broadcast round trip -/

/-- C7: `hub.broadcast(A, X)` immediately followed by
`hub.get_shared_context(A)` returns `X` unchanged; and after any
sequence of broadcasts since the last `clear()`, `get_shared_context(A)`
returns exactly the content of A's most recent broadcast (an empty
mapping if A has not broadcast since the clear). -/
theorem hub_broadcast_roundtrip :
    (∀ (h : Hub) (A : String) (X : Ctx) (msgId : String),
       getSharedContext (broadcast h A X msgId) A = X) ∧
    (∀ (h : Hub) (bs : List (String × Ctx × String)) (A : String),
       getSharedContext (applyBroadcasts (clearHub h) bs) A =
         (lastBroadcastOf A bs).getD []) := by
  constructor
  · intro h A X msgId
    simp [getSharedContext, broadcast, sendMessage]
  · intro h bs A
    rw [applyBroadcasts_shared]
    cases hl : lastBroadcastOf A bs with
    | some c => rfl
    | none => rfl

/-! ## C10 — ACT-stage trade gate -/

/-- C10: the ACT stage submits a decision to the order-execution
collaborator exactly when its action is BUY or SELL and its quantity is
truthy; a decision with quantity None or 0 passes through unchanged (so
it acquires neither a `trade_result` nor a `trade_error` field — the
parsers emit both as absent). -/
theorem act_stage_gate (env : PilotEnv) (ds : List Decision) (i : Nat)
    (d : Decision) (hd : ds[i]? = some d) (hs : shouldTrade d = false) :
    (actStage env ds).1[i]? = some d ∧
    d ∉ (actStage env ds).2 ∧
    (actStage env ds).2 = ds.filter shouldTrade ∧
    (∀ (s : String) (t : Str) (p : Option Position),
      (parseAutonomousDecision s t p).trade_result = none ∧
      (parseAutonomousDecision s t p).trade_error = none) := by
  refine ⟨actStage_fst_skip env ds i d hd hs, ?_, actStage_snd env ds, ?_⟩
  · rw [actStage_snd]
    intro hmem
    have hmem2 := (List.mem_filter.mp hmem).2
    rw [hs] at hmem2
    simp at hmem2
  · intro s t p
    exact ⟨rfl, rfl⟩

/-- Witness for C10 at the concrete input: a BUY decision with quantity
0 is left untouched by the ACT stage. -/
theorem act_stage_gate_witness :
    (actStage pilotEnvOkTrades [zeroQtyDecision]).1[0]? = some zeroQtyDecision :=
  (act_stage_gate pilotEnvOkTrades [zeroQtyDecision] 0 zeroQtyDecision rfl rfl).1

/-! ## C2 — guaranteed trace finalization -/

/-- C2: every execution of `run_autonomous_pilot` persists the trace via
`save_agent_run` exactly once; on the exception path the saved trace has
status ERROR and carries the exception message, and the exception is
re-raised; on the normal path the saved trace is the returned trace,
finalized COMPLETE. -/
theorem pilot_trace_finalization (env : PilotEnv) (runId : String) :
    (runAutonomousPilot env runId).2.length = 1 ∧
    (∀ e, (runAutonomousPilot env runId).1 = Except.error e →
      ∃ t, (runAutonomousPilot env runId).2 = [t] ∧
        t.status = "ERROR" ∧ t.error = some e) ∧
    (∀ t, (runAutonomousPilot env runId).1 = Except.ok t →
      (runAutonomousPilot env runId).2 = [t] ∧
        t.status = "COMPLETE" ∧ t.error = none) := by
  unfold runAutonomousPilot
  cases hb : pilotTryBody env runId with
  | ok t =>
    refine ⟨rfl, ?_, ?_⟩
    · intro e he
      simp at he
    · intro t' ht'
      have htt : t = t' := by simpa using ht'
      subst htt
      exact ⟨rfl, (pilotTryBody_ok env runId t hb).1,
        (pilotTryBody_ok env runId t hb).2⟩
  | error et =>
    obtain ⟨e, t⟩ := et
    refine ⟨rfl, ?_, ?_⟩
    · intro e' he'
      have hee : e = e' := by simpa using he'
      subst hee
      exact ⟨_, rfl, rfl, rfl⟩
    · intro t' ht'
      simp at ht'

/-- Witness for C2 at a concrete environment whose portfolio load
raises: one trace is saved, with status ERROR and the exception
message. -/
theorem pilot_trace_finalization_witness :
    (runAutonomousPilot pilotEnvBoom "r").2.length = 1 ∧
    ∃ t, (runAutonomousPilot pilotEnvBoom "r").2 = [t] ∧
      t.status = "ERROR" ∧ t.error = some ("boom".toList) :=
  ⟨(pilot_trace_finalization pilotEnvBoom "r").1,
   (pilot_trace_finalization pilotEnvBoom "r").2.1 ("boom".toList) rfl⟩

/-! ## C3 — per-symbol failure isolation in the coordinator -/

/-- Every decision produced by the per-symbol pipeline carries its
symbol. -/
theorem processSymbol_symbol (env : CoordEnv) (st : PortfolioState)
    (s : String) : (processSymbol env st s).symbol = s := by
  unfold processSymbol
  split
  · rfl
  · rfl
  · split
    · rfl
    · split
      · rfl
      · rfl

/-- C3: once the portfolio load succeeds, `run_trading_cycle` returns
exactly one decision per watchlist symbol (carrying that symbol), and for
any symbol whose analysis comes back with an error key — or whose
analysis, risk-evaluation or final-decision step raises — the decision is
exactly HOLD with confidence 0.0 and the error text embedded in the
reasoning, the remaining symbols still being processed. -/
theorem coordinator_failure_isolation (env : CoordEnv)
    (watchlist : List String) (st : PortfolioState)
    (h : env.loadPortfolio = Except.ok st) :
    runTradingCycle env watchlist =
      Except.ok (watchlist.map (processSymbol env st)) ∧
    (watchlist.map (processSymbol env st)).length = watchlist.length ∧
    (watchlist.map (processSymbol env st)).map Decision.symbol = watchlist ∧
    (∀ s r, (holdDecision s r).action = "HOLD" ∧
      (holdDecision s r).confidence = 0 ∧ (holdDecision s r).reasoning = r) ∧
    (∀ s,
      (∀ e, env.analyze s = Except.error e →
        processSymbol env st s =
          holdDecision s (("Processing error: ".toList) ++ e)) ∧
      (∀ m, env.analyze s = Except.ok (AnalyzeOutcome.errorRes m) →
        processSymbol env st s =
          holdDecision s (("Analysis error: ".toList) ++ m)) ∧
      (∀ ma e, env.analyze s = Except.ok (AnalyzeOutcome.okRes ma) →
        evaluateTrade env s (potentialAction st s) ma st = Except.error e →
        processSymbol env st s =
          holdDecision s (("Processing error: ".toList) ++ e)) ∧
      (∀ ma re e, env.analyze s = Except.ok (AnalyzeOutcome.okRes ma) →
        evaluateTrade env s (potentialAction st s) ma st = Except.ok re →
        env.execModelText s = Except.error e →
        processSymbol env st s =
          holdDecision s (("Processing error: ".toList) ++ e))) := by
  refine ⟨?_, List.length_map _ _, ?_, ?_, ?_⟩
  · unfold runTradingCycle
    rw [h]
  · rw [List.map_map]
    have : (Decision.symbol ∘ processSymbol env st) = fun s => s := by
      funext s
      exact processSymbol_symbol env st s
    rw [this, List.map_id']
  · intro s r
    exact ⟨rfl, rfl, rfl⟩
  · intro s
    refine ⟨?_, ?_, ?_, ?_⟩
    · intro e he
      unfold processSymbol
      rw [he]
    · intro m hm
      unfold processSymbol
      rw [hm]
    · intro ma e hma he
      unfold processSymbol
      rw [hma]
      simp only [he]
    · intro ma re e hma hre he
      unfold processSymbol
      rw [hma]
      simp only [hre, he]

/-- Witness for C3 at a concrete environment whose analysis raises for
NVDA: the decision is the forced HOLD with the error in the reasoning. -/
theorem coordinator_failure_isolation_witness :
    processSymbol coordEnvBoom examplePS "NVDA" =
      holdDecision "NVDA" (("Processing error: ".toList) ++ ("boom".toList)) :=
  ((coordinator_failure_isolation coordEnvBoom ["NVDA"] examplePS
    rfl).2.2.2.2 "NVDA").1 ("boom".toList) rfl

/-! ## C6 — SELL is always a full exit -/

/-- A SELL action out of `_parse_decision` is only reachable with a
flagged existing position. -/
theorem parseDecisionAction_sell_flag (text : Str) (ex : Option PositionInfo)
    (hS : parseDecisionAction text ex = "SELL") : existsFlag ex = true := by
  unfold parseDecisionAction at hS
  by_cases h1 : containsSub (text.map pyUpper) ("HOLD".toList) = true
  · rw [if_pos h1] at hS
    exact absurd hS (by decide)
  · rw [if_neg h1] at hS
    by_cases h2 : existsFlag ex = true
    · exact h2
    · rw [if_neg h2] at hS
      by_cases h3 : (containsSub (text.map pyUpper) ("BUY".toList) &&
          !containsSub (text.map pyUpper) dontBuyStr) = true
      · rw [if_pos h3] at hS
        exact absurd hS (by decide)
      · rw [if_neg h3] at hS
        exact absurd hS (by decide)

/-- C6: whenever `ExecutionAgent._parse_decision` resolves the action to
SELL, an existing position was passed in and the returned quantity is
exactly that position's quantity — independent of any number in the
model text. -/
theorem sell_full_exit (text : Str) (risk : RiskEvaluation)
    (ex : Option PositionInfo)
    (h : (parseDecision text risk ex).action = "SELL") :
    ∃ p, ex = some p ∧
      (parseDecision text risk ex).quantity = some p.quantity := by
  have hS : parseDecisionAction text ex = "SELL" := h
  have hflag := parseDecisionAction_sell_flag text ex hS
  obtain ⟨p, rfl⟩ : ∃ p, ex = some p := by
    cases ex with
    | none => exact absurd hflag (by decide)
    | some p => exact ⟨p, rfl⟩
  refine ⟨p, rfl, ?_⟩
  have hq : (parseDecision text risk (some p)).quantity =
      (if parseDecisionAction text (some p) = "BUY" then
        some risk.recommended_quantity
       else if parseDecisionAction text (some p) = "SELL" then
        some p.quantity
       else none) := rfl
  rw [hq, hS, if_neg (by decide), if_pos rfl]

/-- With a `None` current price, `_parse_evaluation` always raises
(`current_price * 0.95`, `current_price * 1.10` or
`risk = current_price - stop_loss` hits `None`): it never returns an
evaluation. -/
theorem parseEvaluation_none_not_ok (text : Str) (st : PortfolioState)
    (ev : RiskEvaluation) : parseEvaluation text none st ≠ Except.ok ev := by
  intro h
  unfold parseEvaluation at h
  dsimp only at h
  repeat' split at h
  all_goals exact Except.noConfusion h

/-- Characterization of every evaluation `_parse_evaluation` can return:
a numeric current price was present, the approval verdict is the
APPROVED-and-not-REJECTED test, the position size defaulted to
`min(5% equity, max size)` when the regex found nothing, and quantity and
risk/reward ratio are computed from the returned fields exactly as in the
source. -/
theorem parseEvaluation_ok_inversion (text : Str) (cp : Option ℚ)
    (st : PortfolioState) (ev : RiskEvaluation)
    (h : parseEvaluation text cp st = Except.ok ev) :
    (∃ c, cp = some c) ∧
    ((ev.approval_status = "APPROVED" ↔
        (containsSub (text.map pyUpper) ("APPROVED".toList) = true ∧
         containsSub (text.map pyUpper) ("REJECTED".toList) = false)) ∧
      (ev.approval_status = "APPROVED" ∨ ev.approval_status = "REJECTED")) ∧
    (findKwGroup ("position size".toList) true posSizeClass text = none →
      ev.position_size_dollars =
        min (st.total_equity * (5/100)) PAPER_MAX_POSITION_SIZE) ∧
    (∀ c, cp = some c → c ≠ 0 →
      ev.recommended_quantity = pyIntOfRat (ev.position_size_dollars / c)) ∧
    (cp = some 0 → ev.recommended_quantity = 0) ∧
    (∀ c, cp = some c →
      ev.risk_reward_ratio =
        (if c - ev.stop_loss > 0 then
          (ev.take_profit - c) / (c - ev.stop_loss)
         else 0)) := by
  cases cp with
  | none => exact absurd h (parseEvaluation_none_not_ok text st ev)
  | some c =>
    unfold parseEvaluation at h
    cases hps : extractDollar ("position size".toList) posSizeClass stripCommas
        text (Except.ok
          (min (st.total_equity * (5/100)) PAPER_MAX_POSITION_SIZE)) with
    | error e =>
      rw [hps] at h
      exact Except.noConfusion h
    | ok ps =>
      rw [hps] at h
      cases hsl : extractDollar ("stop loss".toList) confClass (fun g => g)
          text (priceTimes (some c) (95/100)) with
      | error e =>
        rw [hsl] at h
        exact Except.noConfusion h
      | ok sl =>
        rw [hsl] at h
        cases htp : extractDollar ("take profit".toList) confClass (fun g => g)
            text (priceTimes (some c) (110/100)) with
        | error e =>
          rw [htp] at h
          exact Except.noConfusion h
        | ok tp =>
          rw [htp] at h
          dsimp only at h
          rw [Except.ok.injEq] at h
          subst h
          refine ⟨⟨c, rfl⟩, ⟨?_, ?_⟩, ?_, ?_, ?_, ?_⟩
          · constructor
            · intro ha
              by_cases hc : (containsSub (text.map pyUpper) ("APPROVED".toList) &&
                  !containsSub (text.map pyUpper) ("REJECTED".toList)) = true
              · rw [Bool.and_eq_true, Bool.not_eq_true'] at hc
                exact hc
              · dsimp only at ha
                rw [if_neg hc] at ha
                exact absurd ha (by decide)
            · intro hc
              dsimp only
              rw [if_pos (by rw [Bool.and_eq_true, Bool.not_eq_true']; exact hc)]
          · by_cases hc : (containsSub (text.map pyUpper) ("APPROVED".toList) &&
                !containsSub (text.map pyUpper) ("REJECTED".toList)) = true
            · dsimp only
              rw [if_pos hc]
              exact Or.inl rfl
            · dsimp only
              rw [if_neg hc]
              exact Or.inr rfl
          · intro hnone
            unfold extractDollar at hps
            rw [hnone] at hps
            exact (Except.ok.injEq _ _ ▸ hps).symm
          · intro cq hcq hne
            injection hcq with hcq'
            subst hcq'
            dsimp only
            rw [if_pos hne]
          · intro h0
            injection h0 with h0'
            subst h0'
            dsimp only
            rw [if_neg (by simp)]
          · intro cq hcq
            injection hcq with hcq'
            subst hcq'
            rfl

/-- Witness for C6: a 15-share TSLA position and a text containing SELL
and EXIT yield quantity exactly 15. -/
theorem sell_full_exit_witness :
    (parseDecision ("SELL AND EXIT".toList) sampleRisk (some tslaPos)).quantity
      = some 15 := by
  obtain ⟨p, hp, hq⟩ := sell_full_exit ("SELL AND EXIT".toList) sampleRisk
    (some tslaPos) (by decide)
  have hpe : tslaPos = p := Option.some.inj hp
  rw [hq, ← hpe]
  rfl

/-! ## C5 — approval verdict parsing -/

/-- C5: the parsed approval status is APPROVED iff the uppercased model
text contains "APPROVED" and does not contain "REJECTED"; in every other
case it is REJECTED. -/
theorem approval_verdict (text : Str) (cp : Option ℚ) (st : PortfolioState)
    (ev : RiskEvaluation) (h : parseEvaluation text cp st = Except.ok ev) :
    (ev.approval_status = "APPROVED" ↔
      (containsSub (text.map pyUpper) ("APPROVED".toList) = true ∧
       containsSub (text.map pyUpper) ("REJECTED".toList) = false)) ∧
    (ev.approval_status = "APPROVED" ∨ ev.approval_status = "REJECTED") :=
  (parseEvaluation_ok_inversion text cp st ev h).2.1

/-- Witness for C5 at a concrete model text containing only
"APPROVED". -/
theorem approval_verdict_witness :
    parseEvaluation ("APPROVED".toList) (some 50) examplePS = Except.ok evC5 ∧
    evC5.approval_status = "APPROVED" := by
  have hcomp : parseEvaluation ("APPROVED".toList) (some 50) examplePS =
      Except.ok evC5 := by
    unfold parseEvaluation extractDollar
    rw [show findKwGroup ("position size".toList) true posSizeClass
      ("APPROVED".toList) = none from by decide]
    rw [show findKwGroup ("stop loss".toList) true confClass
      ("APPROVED".toList) = none from by decide]
    rw [show findKwGroup ("take profit".toList) true confClass
      ("APPROVED".toList) = none from by decide]
    dsimp only [priceTimes, examplePS]
    rw [Except.ok.injEq]
    unfold evC5
    rw [RiskEvaluation.mk.injEq]
    refine ⟨?_, ?_, ?_, ?_, ?_, ?_, ?_, rfl⟩
    · rw [if_pos (by decide)]
    · rw [if_neg (by decide), if_neg (by decide)]
    · norm_num [PAPER_MAX_POSITION_SIZE, min_def]
    · rw [if_pos (by norm_num)]
      norm_num [pyIntOfRat, PAPER_MAX_POSITION_SIZE, min_def]
    · norm_num
    · norm_num
    · rw [if_pos (by norm_num)]
      norm_num
  exact ⟨hcomp,
    (approval_verdict ("APPROVED".toList) (some 50) examplePS evC5 hcomp).1.mpr
      ⟨by decide, by decide⟩⟩

/-! ## C8 — guarded risk/reward ratio -/

/-- C8: for every current price, the evaluation's risk/reward ratio is
`(take_profit - current_price) / (current_price - stop_loss)` when
`current_price > stop_loss`, and exactly 0 whenever
`stop_loss ≥ current_price` (the divide is guarded, never performed on a
nonpositive risk). -/
theorem risk_reward_guarded (text : Str) (c : ℚ) (st : PortfolioState)
    (ev : RiskEvaluation)
    (h : parseEvaluation text (some c) st = Except.ok ev) :
    (ev.stop_loss ≥ c → ev.risk_reward_ratio = 0) ∧
    (c > ev.stop_loss → ev.risk_reward_ratio =
      (ev.take_profit - c) / (c - ev.stop_loss)) := by
  have hr := (parseEvaluation_ok_inversion text (some c) st ev h).2.2.2.2.2 c rfl
  constructor
  · intro hge
    rw [hr, if_neg (by linarith)]
  · intro hgt
    rw [hr, if_pos (by linarith)]

/-- Witness for C8 at a concrete text whose stop loss (110) sits above
the current price (50): the ratio is exactly 0. -/
theorem risk_reward_guarded_witness :
    parseEvaluation ("stop loss: 110".toList) (some 50) examplePS =
      Except.ok evC8 ∧
    evC8.risk_reward_ratio = 0 := by
  have hpf : pyFloat ('1' :: '1' :: '0' :: []) = some 110 := by
    unfold pyFloat
    rw [if_pos (by decide)]
    rw [show (('1' :: '1' :: '0' :: [] : Str).takeWhile (fun c => c ≠ '.')) =
      '1' :: '1' :: '0' :: [] from by decide]
    rw [show (('1' :: '1' :: '0' :: [] : Str).dropWhile (fun c => c ≠ '.')) =
      [] from by decide]
    dsimp only
    rw [show digitsToNat ('1' :: '1' :: '0' :: []) = 110 from by decide]
    norm_num [digitsToNat]
  have hcomp : parseEvaluation ("stop loss: 110".toList) (some 50) examplePS =
      Except.ok evC8 := by
    unfold parseEvaluation extractDollar
    rw [show findKwGroup ("position size".toList) true posSizeClass
      ("stop loss: 110".toList) = none from by decide]
    rw [show findKwGroup ("stop loss".toList) true confClass
      ("stop loss: 110".toList) = some ('1' :: '1' :: '0' :: []) from by decide]
    rw [show findKwGroup ("take profit".toList) true confClass
      ("stop loss: 110".toList) = none from by decide]
    dsimp only
    rw [hpf]
    dsimp only [priceTimes, examplePS]
    rw [Except.ok.injEq]
    unfold evC8
    rw [RiskEvaluation.mk.injEq]
    refine ⟨?_, ?_, ?_, ?_, rfl, ?_, ?_, rfl⟩
    · rw [if_neg (by decide)]
    · rw [if_neg (by decide), if_neg (by decide)]
    · norm_num [PAPER_MAX_POSITION_SIZE, min_def]
    · rw [if_pos (by norm_num)]
      norm_num [pyIntOfRat, PAPER_MAX_POSITION_SIZE, min_def]
    · norm_num
    · rw [if_neg (by norm_num)]
  exact ⟨hcomp,
    (risk_reward_guarded ("stop loss: 110".toList) 50 examplePS evC8 hcomp).1
      (by norm_num [evC8])⟩

/-! ## C9 — position-size default and quantity (corrected) -/

/-- C9 counterexample: with `current_price = None`, `_parse_evaluation`
raises a TypeError (at the default stop-loss computation) instead of
returning an evaluation whose recommended quantity is 0, contradicting
the claim's "0 when current_price is ... None". -/
theorem quantity_price_none_counterexample :
    parseEvaluation [] none examplePS =
      Except.error ("TypeError: NoneType in arithmetic".toList) := rfl

/-- C9 amended: when the position-size regex finds nothing, the position
size defaults to `min(5% of total_equity, max position size)`; whenever
an evaluation is returned, the recommended quantity is
`position_size / current_price` truncated toward zero when the price is
a nonzero number (which equals the floor whenever the quotient is
nonnegative), 0 when the price is 0; and with a `None` price the parser
raises instead of returning. -/
theorem position_size_quantity_amended (text : Str) (cp : Option ℚ)
    (st : PortfolioState) (ev : RiskEvaluation)
    (h : parseEvaluation text cp st = Except.ok ev) :
    (cp = none → False) ∧
    (findKwGroup ("position size".toList) true posSizeClass text = none →
      ev.position_size_dollars =
        min (st.total_equity * (5/100)) PAPER_MAX_POSITION_SIZE) ∧
    (∀ c, cp = some c → c ≠ 0 →
      ev.recommended_quantity = pyIntOfRat (ev.position_size_dollars / c)) ∧
    (cp = some 0 → ev.recommended_quantity = 0) ∧
    (∀ c, cp = some c → c ≠ 0 → 0 ≤ ev.position_size_dollars / c →
      ev.recommended_quantity = ⌊ev.position_size_dollars / c⌋) := by
  obtain ⟨⟨c0, hc0⟩, _, hpos, hqty, hq0, _⟩ :=
    parseEvaluation_ok_inversion text cp st ev h
  refine ⟨?_, hpos, hqty, hq0, ?_⟩
  · intro hn
    rw [hn] at hc0
    exact Option.noConfusion hc0
  · intro c hc hne hnonneg
    rw [hqty c hc hne]
    simp only [pyIntOfRat]
    rw [if_pos hnonneg]

/-- Witness for C9 at the empty text and price 50: the default position
size and the truncated quantity. -/
theorem position_size_quantity_amended_witness :
    parseEvaluation [] (some 50) examplePS = Except.ok evC9 ∧
    evC9.position_size_dollars =
      min (examplePS.total_equity * (5/100)) PAPER_MAX_POSITION_SIZE ∧
    evC9.recommended_quantity = pyIntOfRat (evC9.position_size_dollars / 50) := by
  have hcomp : parseEvaluation [] (some 50) examplePS = Except.ok evC9 := by
    unfold parseEvaluation extractDollar
    rw [show findKwGroup ("position size".toList) true posSizeClass
      ([] : Str) = none from rfl]
    rw [show findKwGroup ("stop loss".toList) true confClass
      ([] : Str) = none from rfl]
    rw [show findKwGroup ("take profit".toList) true confClass
      ([] : Str) = none from rfl]
    dsimp only [priceTimes, examplePS]
    rw [Except.ok.injEq]
    unfold evC9
    rw [RiskEvaluation.mk.injEq]
    refine ⟨?_, ?_, ?_, ?_, ?_, ?_, ?_, rfl⟩
    · rw [if_neg (by decide)]
    · rw [if_neg (by decide), if_neg (by decide)]
    · norm_num [PAPER_MAX_POSITION_SIZE, min_def]
    · rw [if_pos (by norm_num)]
      norm_num [pyIntOfRat, PAPER_MAX_POSITION_SIZE, min_def]
    · norm_num
    · norm_num
    · rw [if_pos (by norm_num)]
      norm_num
  refine ⟨hcomp, ?_, ?_⟩
  · exact (position_size_quantity_amended [] (some 50) examplePS evC9
      hcomp).2.1 rfl
  · exact (position_size_quantity_amended [] (some 50) examplePS evC9
      hcomp).2.2.1 50 rfl (by norm_num)

/-! ## C1 — confidence parsing (corrected) -/

/-- C1 counterexample: on the text "Confidence: 150" both the execution
agent's `_parse_decision` and the pilot's `parse_autonomous_decision`
return confidence 1.5, violating the claimed upper bound of 1 (only the
market analyst clamps). -/
theorem confidence_above_one_counterexample :
    1 < (parseDecision ("Confidence: 150".toList) sampleRisk none).confidence ∧
    1 < (parseAutonomousDecision "NVDA" ("Confidence: 150".toList)
          none).confidence := by
  have hpf : pyFloat ('1' :: '5' :: '0' :: []) = some 150 := by
    unfold pyFloat
    rw [if_pos (by decide)]
    rw [show (('1' :: '5' :: '0' :: [] : Str).takeWhile (fun c => c ≠ '.')) =
      '1' :: '5' :: '0' :: [] from by decide]
    rw [show (('1' :: '5' :: '0' :: [] : Str).dropWhile (fun c => c ≠ '.')) =
      [] from by decide]
    dsimp only
    rw [show digitsToNat ('1' :: '5' :: '0' :: []) = 150 from by decide]
    norm_num [digitsToNat]
  have hc : confidenceFromText ("Confidence: 150".toList) = 3/2 := by
    unfold confidenceFromText
    rw [show findKwGroup ("confidence".toList) false confClass
      ("Confidence: 150".toList) = some ('1' :: '5' :: '0' :: []) from by decide]
    dsimp only
    rw [hpf]
    dsimp only
    rw [if_pos (by norm_num)]
    norm_num
  have h1 : (parseDecision ("Confidence: 150".toList) sampleRisk
      none).confidence = confidenceFromText ("Confidence: 150".toList) := rfl
  have h2 : (parseAutonomousDecision "NVDA" ("Confidence: 150".toList)
      none).confidence = confidenceFromText ("Confidence: 150".toList) := rfl
  rw [h1, h2, hc]
  norm_num

/-- C1 amended: the market analyst's extracted confidence always lies in
[0, 1] (it clamps); the execution agent's and the pilot's parsers share
one confidence computation, which is nonnegative, returns exactly 0.5 on
a missing or unparseable value, and returns the matched value m — divided
by 100 once when m > 1 — so it exceeds 1 exactly when the matched number
is above 100. -/
theorem confidence_parsers_amended (text : Str) (risk : RiskEvaluation)
    (ex : Option PositionInfo) (symbol : String) (pos : Option Position) :
    (0 ≤ extractConfidence text ∧ extractConfidence text ≤ 1) ∧
    (parseDecision text risk ex).confidence = confidenceFromText text ∧
    (parseAutonomousDecision symbol text pos).confidence =
      confidenceFromText text ∧
    0 ≤ confidenceFromText text ∧
    ((findKwGroup ("confidence".toList) false confClass text).bind pyFloat =
        none →
      confidenceFromText text = 1/2 ∧ extractConfidence text = 1/2) ∧
    (∀ m, (findKwGroup ("confidence".toList) false confClass text).bind
        pyFloat = some m →
      confidenceFromText text = (if m > 1 then m / 100 else m)) := by
  cases hg : findKwGroup ("confidence".toList) false confClass text with
  | none =>
    have he : extractConfidence text = 1/2 := by
      unfold extractConfidence
      rw [hg]
    have hc : confidenceFromText text = 1/2 := by
      unfold confidenceFromText
      rw [hg]
    refine ⟨⟨?_, ?_⟩, rfl, rfl, ?_, ?_, ?_⟩
    · rw [he]; norm_num
    · rw [he]; norm_num
    · rw [hc]; norm_num
    · intro _
      exact ⟨hc, he⟩
    · intro m hm
      exact absurd hm (by simp)
  | some g =>
    cases hf : pyFloat g with
    | none =>
      have he : extractConfidence text = 1/2 := by
        unfold extractConfidence
        rw [hg]
        dsimp only
        rw [hf]
      have hc : confidenceFromText text = 1/2 := by
        unfold confidenceFromText
        rw [hg]
        dsimp only
        rw [hf]
      refine ⟨⟨?_, ?_⟩, rfl, rfl, ?_, ?_, ?_⟩
      · rw [he]; norm_num
      · rw [he]; norm_num
      · rw [hc]; norm_num
      · intro _
        exact ⟨hc, he⟩
      · intro m hm
        dsimp only [Option.bind] at hm
        rw [hf] at hm
        exact Option.noConfusion hm
    | some v =>
      have hv : 0 ≤ v := pyFloat_nonneg hf
      have he : extractConfidence text =
          max 0 (min 1 (if v > 1 then v / 100 else v)) := by
        unfold extractConfidence
        rw [hg]
        dsimp only
        rw [hf]
      have hc : confidenceFromText text = (if v > 1 then v / 100 else v) := by
        unfold confidenceFromText
        rw [hg]
        dsimp only
        rw [hf]
      refine ⟨⟨?_, ?_⟩, rfl, rfl, ?_, ?_, ?_⟩
      · rw [he]
        exact le_max_left 0 _
      · rw [he]
        exact max_le (by norm_num) (min_le_left 1 _)
      · rw [hc]
        split
        · exact div_nonneg hv (by norm_num)
        · exact hv
      · intro hnone
        dsimp only [Option.bind] at hnone
        rw [hf] at hnone
        exact Option.noConfusion hnone
      · intro m hm
        dsimp only [Option.bind] at hm
        rw [hf] at hm
        injection hm with hm'
        subst hm'
        exact hc

/-- Witness for C1 at the text "confidence: 1": the shared confidence
computation returns the matched value 1 unchanged. -/
theorem confidence_parsers_amended_witness :
    confidenceFromText ("confidence: 1".toList) = 1 := by
  have hb : (findKwGroup ("confidence".toList) false confClass
      ("confidence: 1".toList)).bind pyFloat = some 1 := by
    rw [show findKwGroup ("confidence".toList) false confClass
      ("confidence: 1".toList) = some ('1' :: []) from by decide]
    dsimp only [Option.bind]
    unfold pyFloat
    rw [if_pos (by decide)]
    rw [show (('1' :: [] : Str).takeWhile (fun c => c ≠ '.')) = '1' :: []
      from by decide]
    rw [show (('1' :: [] : Str).dropWhile (fun c => c ≠ '.')) = []
      from by decide]
    dsimp only
    rw [show digitsToNat ('1' :: []) = 1 from by decide]
    norm_num [digitsToNat]
  rw [(confidence_parsers_amended ("confidence: 1".toList) sampleRisk none
    "NVDA" none).2.2.2.2.2 1 hb]
  norm_num

end Atlas
